import Mathlib

/-!
Shallow embedding of the WinSpd `stgpipe` storage test client
(src/tst/stgpipe/stgpipe.c): the dual-transport open/transact layer, the
workload generator, the content oracle and the test loop, together with
theorems about the properties the design documentation states for them.

Machine integers are modelled as `Nat` with explicit reductions modulo
`2 ^ 32` / `2 ^ 64` at the points where the C code can overflow; byte
buffers are modelled as `List Nat` of byte (or, for the content oracle,
64-bit word) values; fallible operations return `Except` over the Windows
error-code domain.
-/

namespace Stgpipe

/-- `2 ^ 32`, the modulus of `UINT32`/`ULONG` arithmetic. -/
def pow32 : Nat := 2 ^ 32

/-- `2 ^ 64`, the modulus of `UINT64` arithmetic. -/
def pow64 : Nat := 2 ^ 64

/-- Windows `ERROR_SUCCESS`. -/
def ERROR_SUCCESS : Nat := 0

/-- Windows `ERROR_INVALID_PARAMETER`. -/
def ERROR_INVALID_PARAMETER : Nat := 87

/-- Windows `ERROR_IO_DEVICE`. -/
def ERROR_IO_DEVICE : Nat := 1117

/-- SCSI `SCSISTAT_GOOD`. -/
def SCSISTAT_GOOD : Nat := 0

/-- The transact operation kinds (`SpdIoctlTransact*Kind`).  `reserved` is
kind 0; stgpipe.c line 620 passes the literal `0` for the fill mode of
`FillOrTest`, identifying it with `SpdIoctlTransactReservedKind`. -/
inductive TransactKind where
  | reserved
  | read
  | write
  | flush
  | unmap
deriving DecidableEq, Repr, Inhabited

/-- `SPD_IOCTL_STORAGE_UNIT_PARAMS`, restricted to the geometry fields the
program reads: `BlockCount : UINT64`, `BlockLength : UINT32`,
`MaxTransferLength : UINT32`. -/
structure StorageUnitParams where
  BlockCount : Nat
  BlockLength : Nat
  MaxTransferLength : Nat
deriving DecidableEq, Repr

/-- Modelled from the spec: `SPD_IOCTL_UNMAP_DESCRIPTOR` (declared in the
winspd headers, which are not under src/) is `{BlockAddress : u64,
BlockCount : u32, Reserved : u32}`, hence 16 bytes. -/
def sizeofUnmapDescriptor : Nat := 16

/-- Modelled from the spec: the handshake message is the raw Geometry
struct of three fixed-width fields (u64 + u32 + u32 = 16 bytes); the
winspd header declaring `SPD_IOCTL_STORAGE_UNIT_PARAMS` is not under
src/.  Only comparisons against this size matter to the claims. -/
def sizeofStorageUnitParams : Nat := 16

/-- Modelled from the spec: the byte size of the fixed `SPD_IOCTL_TRANSACT_REQ`
request header (winspd headers not under src/).  Only its relative order
(`sizeofTransactRsp ≤ sizeofTransactMsg`) matters to the claims. -/
def sizeofTransactReq : Nat := 32

/-- Modelled from the spec: the byte size of the fixed `SPD_IOCTL_TRANSACT_RSP`
response header (winspd headers not under src/). -/
def sizeofTransactRsp : Nat := 24

/-- `sizeof(TRANSACT_MSG)`: the union of the request and response headers
(stgpipe.c lines 61-65), i.e. the larger of the two. -/
def sizeofTransactMsg : Nat := max sizeofTransactReq sizeofTransactRsp

/-- Truncate-or-zero-fill a byte list to exactly `n` entries (the combined
effect of `memcpy` of `min` available bytes plus `memset 0` of the rest). -/
def padTo (n : Nat) (l : List Nat) : List Nat :=
  l.take n ++ List.replicate (n - l.length) 0

/-! ## Content oracle (`HashMix64`, `FillOrTest`, lines 458-493) -/

/-- `HashMix64` (lines 458-466): three rounds of xor-shift by 33 and
multiplication by a fixed odd 64-bit constant, in `UINT64` arithmetic. -/
def HashMix64 (k : Nat) : Nat :=
  let k1 := k ^^^ (k >>> 33)
  let k2 := (k1 * 0xff51afd7ed558ccd) % pow64
  let k3 := k2 ^^^ (k2 >>> 33)
  let k4 := (k3 * 0xc4ceb9fe1a85ec53) % pow64
  k4 ^^^ (k4 >>> 33)

/-- `FillOrTest` (lines 468-493).  The data buffer is modelled as the list
of 64-bit words of the operation's region: word `I * (BlockLength/8) + J`
models `((PUINT64)((PUINT8)DataBuffer + I*BlockLength))[J]`.  Mode
`reserved` (the literal `0` at line 620) fills the region with the hash
pattern; mode `write` tests every word against the hash pattern; mode
`unmap` tests every word against zero; any other mode touches nothing.
Returns the resulting buffer together with the C `int` result as a `Bool`. -/
def FillOrTest (dataBuffer : List Nat) (blockLength blockAddress blockCount : Nat)
    (fillOrTestOpKind : TransactKind) : List Nat × Bool :=
  match fillOrTestOpKind with
  | .reserved =>
      ((List.range blockCount).flatMap fun i =>
        List.replicate (blockLength / 8) (HashMix64 ((blockAddress + i + 1) % pow64)), true)
  | .write =>
      (dataBuffer,
        (List.range blockCount).all fun i =>
          (List.range (blockLength / 8)).all fun j =>
            dataBuffer.getD (i * (blockLength / 8) + j) 0 ==
              HashMix64 ((blockAddress + i + 1) % pow64))
  | .unmap =>
      (dataBuffer,
        (List.range blockCount).all fun i =>
          (List.range (blockLength / 8)).all fun j =>
            dataBuffer.getD (i * (blockLength / 8) + j) 0 == 0)
  | _ => (dataBuffer, true)

/-! ## Pseudo-random generator (`GenRandomBytes`, lines 495-505) -/

/-- One step of the linear-congruential recurrence
`Seed = Seed * 214013 + 2531011` in `ULONG` arithmetic (line 501). -/
def lcgNext (seed : Nat) : Nat :=
  (seed * 214013 + 2531011) % pow32

/-- The byte-emitting loop of `GenRandomBytes` (lines 498-503): one LCG
step per output byte, emitting `(UINT8)(Seed >> 16)`; returns the bytes
and the final seed state. -/
def genRandomBytesGo (s : Nat) : Nat → List Nat × Nat
  | 0 => ([], s)
  | n + 1 =>
    let s1 := lcgNext s
    let r := genRandomBytesGo s1 n
    (((s1 >>> 16) % 256) :: r.1, r.2)

/-- `GenRandomBytes` (lines 495-505): a starting seed of `0` is replaced
by `1` (line 497), then the buffer is filled byte by byte. -/
def GenRandomBytes (seed size : Nat) : List Nat × Nat :=
  genRandomBytesGo (if seed ≠ 0 then seed else 1) size

/-- The LCG state after `n` iterations of the recurrence from state `s`. -/
def lcgPow : Nat → Nat → Nat
  | 0, s => s
  | n + 1, s => lcgNext (lcgPow n s)

/-- The spec's description of the generator (spec §4.6), written from its
words: treat a zero seed as 1, iterate `seed' = seed*214013 + 2531011`
once per output byte, and emit the low byte of the state's high 16 bits
(the `k`-th output byte comes from the state after `k+1` iterations). -/
def genRandomBytesSpec (seed size : Nat) : List Nat × Nat :=
  let s0 := if seed = 0 then 1 else seed
  ((List.range size).map fun k => (lcgPow (k + 1) s0 >>> 16) % 256,
   lcgPow size s0)

/-! ## Pipe transport open (`StgOpenPipe`, lines 79-149)

Only the handshake validation (lines 122-135) is modelled: the surrounding
`CreateFileW`/`SetNamedPipeHandleState` calls are environment interactions
whose failure simply propagates the OS error. -/

/-- The handshake validation of `StgOpenPipe` (lines 127-135): given the
byte count returned by the single handshake `ReadFile` and the received
`SPD_IOCTL_STORAGE_UNIT_PARAMS`, fail with `ERROR_IO_DEVICE` unless a full
struct was received, `BlockCount` is nonzero, `BlockLength` is at least
`sizeof(SPD_IOCTL_UNMAP_DESCRIPTOR)`, `MaxTransferLength` is nonzero and
`MaxTransferLength` is an exact multiple of `BlockLength`. -/
def stgOpenPipeHandshake (bytesTransferred : Nat) (p : StorageUnitParams) :
    Except Nat StorageUnitParams :=
  if bytesTransferred < sizeofStorageUnitParams ∨
      p.BlockCount = 0 ∨
      p.BlockLength < sizeofUnmapDescriptor ∨
      p.MaxTransferLength = 0 ∨
      p.MaxTransferLength % p.BlockLength ≠ 0 then
    .error ERROR_IO_DEVICE
  else
    .ok p

/-! ## Raw transport open (`StgOpenRaw`, lines 246-351) -/

/-- A 32-bit big-endian value from four bytes, as computed with explicit
shifts at lines 302-306. -/
def be32 (b0 b1 b2 b3 : Nat) : Nat :=
  (b0 <<< 24) ||| (b1 <<< 16) ||| (b2 <<< 8) ||| b3

/-- `BlockCount` as computed from the eight `LogicalBlockAddress` bytes of
the `READ_CAPACITY16` data (lines 293-301).  In the C source the `+` binds
tighter than the `|` chain, so the expression is
`(1 + (b0 << 56)) | (b1 << 48) | ... | b7`, not `1 + be64(b)`. -/
def rawBlockCount (lba : List Nat) : Nat :=
  (1 + (lba.getD 0 0 <<< 56)) |||
    (lba.getD 1 0 <<< 48) ||| (lba.getD 2 0 <<< 40) ||| (lba.getD 3 0 <<< 32) |||
    (lba.getD 4 0 <<< 24) ||| (lba.getD 5 0 <<< 16) ||| (lba.getD 6 0 <<< 8) |||
    lba.getD 7 0

/-- `BlockLength` from the four `BytesPerBlock` bytes (lines 302-306). -/
def rawBlockLength (bpb : List Nat) : Nat :=
  be32 (bpb.getD 0 0) (bpb.getD 1 0) (bpb.getD 2 0) (bpb.getD 3 0)

/-- `MaxTransferLength` as computed from the `MaximumTransferLength` bytes
of the block-limits page (lines 324-328).  In the C source the `*` binds
tighter than the `|` chain, so the expression is
`(BlockLength * (m0 << 24)) | (m1 << 16) | (m2 << 8) | m3` in `UINT32`
arithmetic, not `BlockLength * be32(m)`. -/
def rawMaxTransferLength (blockLength m0 m1 m2 m3 : Nat) : Nat :=
  ((blockLength * (m0 <<< 24)) % pow32) ||| (m1 <<< 16) ||| (m2 <<< 8) ||| m3

/-- The raw device's observable behaviour during geometry discovery: the
outcome of the two `SpdIoctlScsiExecute` calls (a Windows error code, `0`
for success, and the SCSI status byte each) and the data bytes the device
returns (the `READ_CAPACITY16` fields and the block-limits
`MaximumTransferLength` field). -/
structure RawDevice where
  capacityError : Nat
  capacityStatus : Nat
  lba : List Nat
  bytesPerBlock : List Nat
  limitsError : Nat
  limitsStatus : Nat
  maxXfer : List Nat
deriving Repr

/-- The geometry-discovery portion of `StgOpenRaw` (lines 278-341): issue
the capacity read, fail on a command error or non-good status, decode
`BlockCount`/`BlockLength`; issue the block-limits inquiry, fail likewise,
decode `MaxTransferLength` substituting `64 * 1024` when it is zero; fail
with `ERROR_IO_DEVICE` when `BlockCount` or `BlockLength` is zero. -/
def stgOpenRaw (d : RawDevice) : Except Nat StorageUnitParams :=
  if d.capacityError ≠ 0 then .error d.capacityError
  else if d.capacityStatus ≠ SCSISTAT_GOOD then .error ERROR_IO_DEVICE
  else
    let blockCount := rawBlockCount d.lba
    let blockLength := rawBlockLength d.bytesPerBlock
    if d.limitsError ≠ 0 then .error d.limitsError
    else if d.limitsStatus ≠ SCSISTAT_GOOD then .error ERROR_IO_DEVICE
    else
      let mtl0 := rawMaxTransferLength blockLength (d.maxXfer.getD 0 0)
        (d.maxXfer.getD 1 0) (d.maxXfer.getD 2 0) (d.maxXfer.getD 3 0)
      let mtl := if mtl0 = 0 then 64 * 1024 else mtl0
      if blockCount = 0 ∨ blockLength = 0 then .error ERROR_IO_DEVICE
      else .ok ⟨blockCount, blockLength, mtl⟩

/-! ## Transact requests and responses -/

/-- `SPD_IOCTL_TRANSACT_REQ`, restricted to the fields stgpipe reads.
`blockAddress`/`blockCount` model the shared layout of the `Read`, `Write`
and `Flush` members of the `Op` union; `unmapCount` models
`Op.Unmap.Count`. -/
structure TransactReq where
  Hint : Nat
  Kind : TransactKind
  blockAddress : Nat
  blockCount : Nat
  unmapCount : Nat
deriving DecidableEq, Repr

/-- `SPD_IOCTL_TRANSACT_RSP`, restricted to the fields stgpipe reads. -/
structure TransactRsp where
  Hint : Nat
  Kind : TransactKind
  ScsiStatus : Nat
deriving DecidableEq, Repr

/-! ## Pipe transport transact (`StgTransactPipe`, lines 151-244) -/

/-- The observable behaviour of the pipe peer during one transact: the
outcome of the outbound `WriteFile` wait and the inbound `ReadFile` wait
(Windows error codes, `0` for success), the byte count the read returned,
and the message it delivered (response header fields plus the payload
bytes that follow the header in the message buffer). -/
structure PipeWire where
  writeError : Nat
  readError : Nat
  bytesTransferred : Nat
  rsp : TransactRsp
  payload : List Nat
deriving Repr

/-- The payload portion of the received message: the
`BytesTransferred - sizeof(TRANSACT_MSG)` bytes following the header. -/
def deliveredPayload (wire : PipeWire) : List Nat :=
  padTo (wire.bytesTransferred - sizeofTransactMsg) wire.payload

/-- `StgTransactPipe` (lines 151-244), with the event/allocation
environment failures elided.  The outbound message length is
`sizeof(TRANSACT_MSG)` plus `BlockCount*BlockLength` for a Write or
`Count*sizeof(SPD_IOCTL_UNMAP_DESCRIPTOR)` for an Unmap (lines 186-198);
the write and read waits propagate their errors; a received message
shorter than `sizeof(TRANSACT_MSG)` or whose `Hint` differs from the
request's fails with `ERROR_IO_DEVICE` (lines 214-218); a read-kind
response with good SCSI status copies `min(received payload,
Read.BlockCount*BlockLength)` payload bytes into the caller's buffer and
zero-fills the remainder up to `Read.BlockCount*BlockLength`, failing with
`ERROR_IO_DEVICE` when that length exceeds `MaxTransferLength` (lines
219-232).  On success the response header and the caller's (possibly
rewritten) data buffer are returned. -/
def stgTransactPipe (req : TransactReq) (dataBuffer : List Nat)
    (p : StorageUnitParams) (wire : PipeWire) :
    Except Nat (TransactRsp × List Nat) :=
  if wire.writeError ≠ 0 then .error wire.writeError
  else if wire.readError ≠ 0 then .error wire.readError
  else if wire.bytesTransferred < sizeofTransactMsg ∨ req.Hint ≠ wire.rsp.Hint then
    .error ERROR_IO_DEVICE
  else if wire.rsp.Kind = .read ∧ wire.rsp.ScsiStatus = SCSISTAT_GOOD then
    let dataLength := (req.blockCount * p.BlockLength) % pow32
    if p.MaxTransferLength < dataLength then .error ERROR_IO_DEVICE
    else .ok (wire.rsp, padTo dataLength (deliveredPayload wire))
  else .ok (wire.rsp, dataBuffer)

/-! ## Raw transport transact (`StgTransactRaw`, lines 353-419) -/

/-- One positioned device I/O performed by the raw transport. -/
structure RawIoAction where
  isWrite : Bool
  offset : Nat
  length : Nat
deriving DecidableEq, Repr

/-- `StgTransactRaw` (lines 353-419).  The null checks on the request,
response and data-buffer pointers are modelled by explicit flags; the
caller's response struct is threaded through so that "left unmodified" is
expressible; the list of positioned I/O actions the call performed is
returned alongside.  A null request/response/data pointer or a kind other
than Read/Write fails with `ERROR_INVALID_PARAMETER` before any I/O
(lines 367-373); otherwise one positioned read or write of
`BlockCount*BlockLength` bytes at offset `BlockAddress*BlockLength` is
issued (lines 382-403) whose wait outcome `ioError` propagates; on success
a response with the request's `Hint` and `Kind` and good status is
synthesized (lines 407-410). -/
def stgTransactRaw (reqNull rspNull dataNull : Bool) (req : TransactReq)
    (rspIn : TransactRsp) (p : StorageUnitParams) (ioError : Nat) :
    Nat × TransactRsp × List RawIoAction :=
  if reqNull ∨ rspNull ∨ (req.Kind ≠ .read ∧ req.Kind ≠ .write) ∨ dataNull then
    (ERROR_INVALID_PARAMETER, rspIn, [])
  else
    let io : RawIoAction :=
      { isWrite := req.Kind = .write
        offset := (req.blockAddress * p.BlockLength) % pow64
        length := (req.blockCount * p.BlockLength) % pow32 }
    if ioError ≠ 0 then (ioError, rspIn, [io])
    else (ERROR_SUCCESS, { Hint := req.Hint, Kind := req.Kind, ScsiStatus := SCSISTAT_GOOD }, [io])

/-! ## Test loop (`run`, lines 507-690) -/

/-- Map one `OpSet` character to an operation kind (the `switch` at lines
552-566); characters other than R/W/F/U (either case) contribute no
entry. -/
def opKindOfChar (c : Char) : Option TransactKind :=
  if c = 'R' ∨ c = 'r' then some .read
  else if c = 'W' ∨ c = 'w' then some .write
  else if c = 'F' ∨ c = 'f' then some .flush
  else if c = 'U' ∨ c = 'u' then some .unmap
  else none

/-- The `OpKinds` array built from the `OpSet` string (lines 550-566): at
most 32 characters are consumed (the array bound), and non-RWFU characters
are skipped. -/
def parseOpKinds (opSet : List Char) : List TransactKind :=
  (opSet.take 32).filterMap opKindOfChar

/-- The effective operation-kind list: default `[Write, Read]` when the
parsed list is empty (lines 567-571). -/
def effectiveOpKinds (opSet : List Char) : List TransactKind :=
  let l := parseOpKinds opSet
  if l = [] then [.write, .read] else l

/-- The value of a byte list read back as a little-endian integer, as when
`GenRandomBytes` fills the memory of a `UINT64`/`UINT32` variable. -/
def leValue (bs : List Nat) : Nat :=
  bs.foldr (fun b acc => b + 256 * acc) 0

/-- `MaxBlockCount = MaxTransferLength / BlockLength` (line 575). -/
def maxBlockCount (p : StorageUnitParams) : Nat :=
  p.MaxTransferLength / p.BlockLength

/-- The per-run inputs of the batch computation: the geometry and the two
randomness flags `RandomAddress`/`RandomCount` (lines 573-574). -/
structure BatchCtx where
  params : StorageUnitParams
  randomAddress : Bool
  randomCount : Bool
deriving Repr

/-- The `BlockAddress` update of a batch start (lines 582-585, before the
modulo reduction): a random address is drawn as 8 generator bytes read
little-endian; otherwise a non-first batch advances the address by the
previous batch's count in `UINT64` arithmetic. -/
def batchAddrDraw (c : BatchCtx) (i blockAddress blockCount seed : Nat) : Nat × Nat :=
  if c.randomAddress then
    let r := GenRandomBytes seed 8
    (leValue r.1, r.2)
  else if i ≠ 0 then ((blockAddress + blockCount) % pow64, seed)
  else (blockAddress, seed)

/-- The `BlockCount` update of a batch start (lines 588-596, before the
zero-promotion): a random count is drawn as 4 generator bytes reduced
modulo `MaxBlockCount`; otherwise the running count is clamped to
`MaxBlockCount`. -/
def batchCountDraw (c : BatchCtx) (blockCount seed : Nat) : Nat × Nat :=
  if c.randomCount then
    let r := GenRandomBytes seed 4
    (leValue r.1 % maxBlockCount c.params, r.2)
  else if maxBlockCount c.params < blockCount then (maxBlockCount c.params, seed)
  else (blockCount, seed)

/-- The `OpBlockCount` clamp (lines 598-599): keep the batch count when
`BlockAddress + BlockCount` (a `UINT64` sum) stays within the device, else
take `BlockCount - BlockAddress` through the `UINT32` cast. -/
def opBlockCountOf (deviceBlockCount blockAddress cnt : Nat) : Nat :=
  if (blockAddress + cnt) % pow64 ≤ deviceBlockCount then cnt
  else (deviceBlockCount - blockAddress) % pow32

/-- The batch-start computation (lines 580-599, the `0 == J` block): given
the loop index `i` and the current `BlockAddress`/`BlockCount`/seed,
produce the new `BlockAddress` (reduced modulo the device's `BlockCount`),
the new `BlockCount` (with zero promoted to 1), the clamped `OpBlockCount`
and the new seed. -/
def batchStart (c : BatchCtx) (i blockAddress blockCount seed : Nat) :
    Nat × Nat × Nat × Nat :=
  let ad := batchAddrDraw c i blockAddress blockCount seed
  let a := ad.1 % c.params.BlockCount
  let cd := batchCountDraw c blockCount ad.2
  let cnt := if cd.1 = 0 then 1 else cd.1
  (a, cnt, opBlockCountOf c.params.BlockCount a cnt, cd.2)

/-- One step of the `TestOpKind` tracking (lines 601, 621, 632): a Write
or Unmap operation records its kind, any other operation leaves the
record unchanged. -/
def testOpKindStep (t : TransactKind) (k : TransactKind) : TransactKind :=
  match k with
  | .write => .write
  | .unmap => .unmap
  | _ => t

/-- The value of `TestOpKind` after the first `j` operations of a batch
whose kind sequence is `ks`, starting from the batch-start reset to
`Reserved` (line 601). -/
def testOpKindAt (ks : List TransactKind) (j : Nat) : TransactKind :=
  (ks.take j).foldl testOpKindStep .reserved

/-- The oracle-verification decision for one operation (lines 646-674):
given the `TestOpKind` value `t` after this operation's own update and the
operation's kind `k`, a Read is verified in mode `t` exactly when `t`
records a Write or an Unmap; any other operation is never verified. -/
def oracleCheckOf (t : TransactKind) (k : TransactKind) : Option TransactKind :=
  if k = .read ∧ (t = .write ∨ t = .unmap) then some t else none

/-- The oracle-verification decision for position `j` of a batch with kind
sequence `ks`, phrased via the tracked `TestOpKind` state. -/
def oracleCheckAt (ks : List TransactKind) (j : Nat) : Option TransactKind :=
  oracleCheckOf (testOpKindAt ks (j + 1)) (ks.getD j .reserved)

/-- The mutable state of the `run` loop across iterations: the loop index
`I`, the batch cursor `J`, the current `BlockAddress`, `BlockCount` and
`OpBlockCount`, the generator seed, and `TestOpKind`. -/
structure LoopState where
  i : Nat
  j : Nat
  blockAddress : Nat
  blockCount : Nat
  opBlockCount : Nat
  seed : Nat
  testOpKind : TransactKind
deriving Repr

/-- One issued operation, as observable from outside the loop: the request
kind and the `BlockAddress`/`OpBlockCount` placed in it (lines 607-634),
together with the oracle check (if any) that applies to its response
(lines 646-674). -/
structure IssuedOp where
  kind : TransactKind
  blockAddress : Nat
  opBlockCount : Nat
  oracleCheck : Option TransactKind
deriving DecidableEq, Repr, Inhabited

/-- One iteration of the `run` loop (lines 578-677): run the batch-start
computation when `J = 0` (also resetting `TestOpKind` to `Reserved`),
select the kind `OpKinds[I mod OpKindCount]`, update `TestOpKind`, and
step `I` and `J`. -/
def loopStep (c : BatchCtx) (ks : List TransactKind) (s : LoopState) :
    IssuedOp × LoopState :=
  let st :=
    if s.j = 0 then
      let b := batchStart c s.i s.blockAddress s.blockCount s.seed
      { s with blockAddress := b.1, blockCount := b.2.1, opBlockCount := b.2.2.1,
               seed := b.2.2.2, testOpKind := .reserved }
    else s
  let k := ks.getD (s.i % ks.length) .reserved
  let t1 := testOpKindStep st.testOpKind k
  ({ kind := k, blockAddress := st.blockAddress, opBlockCount := st.opBlockCount,
     oracleCheck := oracleCheckOf t1 k },
   { st with i := s.i + 1, j := (s.j + 1) % ks.length, testOpKind := t1 })

/-- The state after `n` further iterations of the loop from state `s`. -/
def iterState (c : BatchCtx) (ks : List TransactKind) (s : LoopState) : Nat → LoopState
  | 0 => s
  | n + 1 => iterState c ks (loopStep c ks s).2 n

/-- The operation issued by the iteration that starts in state `s`. -/
def opAt (c : BatchCtx) (ks : List TransactKind) (s : LoopState) : IssuedOp :=
  (loopStep c ks s).1

/-- The sequence of operations the `run` loop issues, with `rem`
iterations remaining.  `resp` abstracts the device: `resp i op` states
whether operation `op`, issued as iteration `i`, transacts successfully
and passes the response correlation and oracle checks; a failing
operation is still issued (the transact precedes the checks) but aborts
the loop (lines 636-674). -/
def traceGo (c : BatchCtx) (ks : List TransactKind)
    (resp : Nat → IssuedOp → Bool) (s : LoopState) : Nat → List IssuedOp
  | 0 => []
  | rem + 1 =>
    let r := loopStep c ks s
    if resp s.i r.1 then r.1 :: traceGo c ks resp r.2 rem else [r.1]

/-- The per-run inputs of the test loop that determine the workload
(`run`'s parameters, lines 507-508). -/
structure RunInput where
  params : StorageUnitParams
  opCount : Nat
  opSet : List Char
  blockAddress0 : Nat
  blockCount0 : Nat
  seed0 : Nat

/-- The batch context derived from a run's inputs: `RandomAddress` holds
when the caller-given address is `(UINT64)-1` and `RandomCount` when the
caller-given count is `(UINT32)-1` (lines 573-574). -/
def runCtx (inp : RunInput) : BatchCtx :=
  { params := inp.params
    randomAddress := inp.blockAddress0 = pow64 - 1
    randomCount := inp.blockCount0 = pow32 - 1 }

/-- The operation sequence issued by `run`: a zero `OpCount` is promoted
to 1 (lines 547-548), the kind list is parsed with its default, and the
loop starts at `I = J = 0` with the caller-given address and count. -/
def runTrace (resp : Nat → IssuedOp → Bool) (inp : RunInput) : List IssuedOp :=
  traceGo (runCtx inp) (effectiveOpKinds inp.opSet) resp
    { i := 0, j := 0, blockAddress := inp.blockAddress0, blockCount := inp.blockCount0,
      opBlockCount := 0, seed := inp.seed0, testOpKind := .reserved }
    (if inp.opCount = 0 then 1 else inp.opCount)

/-- The (Kind, BlockAddress, BlockCount) triple of an issued operation. -/
def opTriple (o : IssuedOp) : TransactKind × Nat × Nat :=
  (o.kind, o.blockAddress, o.opBlockCount)

/-- The loop invariant tying a `LoopState` to the kind cycle: the batch
cursor `J` mirrors `I mod OpKindCount`, and away from a batch boundary the
tracked `TestOpKind` is the fold of the batch's kinds so far. -/
def stateInv (ks : List TransactKind) (s : LoopState) : Prop :=
  s.j = s.i % ks.length ∧ (s.j ≠ 0 → s.testOpKind = testOpKindAt ks s.j)

/-! ## Concrete instances used by witnesses and counterexamples -/

/-- A raw device reporting one block of 8 bytes and a zero maximum
transfer length: both SCSI commands succeed with good status. -/
def exRawDeviceSmallBL : RawDevice :=
  ⟨0, 0, [0, 0, 0, 0, 0, 0, 0, 0], [0, 0, 0, 8], 0, 0, [0, 0, 0, 0]⟩

/-- A well-formed geometry: 100 blocks of 16 bytes, 160-byte transfers. -/
def exParams : StorageUnitParams := ⟨100, 16, 160⟩

/-- A two-block read request with hint 5. -/
def exReqRead : TransactReq := ⟨5, .read, 0, 2, 0⟩

/-- A two-block flush request with hint 5. -/
def exReqFlush : TransactReq := ⟨5, .flush, 0, 2, 0⟩

/-- A pipe exchange whose response message is only 10 bytes long. -/
def exWireShort : PipeWire := ⟨0, 0, 10, ⟨5, .read, 0⟩, []⟩

/-- A pipe exchange delivering a matching read response with 40 payload
bytes of value 7 (more than the 32 bytes two 16-byte blocks need). -/
def exWireLong : PipeWire := ⟨0, 0, 72, ⟨5, .read, 0⟩, List.replicate 40 7⟩

/-- A geometry whose block length is `2^16`, so that a `2^16`-block read
makes `BlockCount * BlockLength` overflow `UINT32`. -/
def exParamsOverflow : StorageUnitParams := ⟨100, 65536, 65536⟩

/-- A read request for `2^16` blocks (hint 5). -/
def exReqOverflow : TransactReq := ⟨5, .read, 0, 65536, 0⟩

/-- A pipe exchange delivering a bare matching read response header. -/
def exWireHeaderOnly : PipeWire := ⟨0, 0, 32, ⟨5, .read, 0⟩, []⟩

/-- A batch context over a device of `2^64 - 1` blocks, with fixed
address and count. -/
def exHugeCtx : BatchCtx := ⟨⟨pow64 - 1, 16, 160⟩, false, false⟩

/-- A batch context over the well-formed geometry `exParams`. -/
def exCtx : BatchCtx := ⟨exParams, false, false⟩

/-- A response oracle under which every operation succeeds. -/
def respAlways : Nat → IssuedOp → Bool := fun _ _ => true

/-- A response oracle under which only the first operation succeeds. -/
def respFirstOnly : Nat → IssuedOp → Bool := fun i _ => i == 0

/-- A three-operation run over the kind cycle Write, Flush, Read. -/
def exRunWFR : RunInput := ⟨exParams, 3, ['W', 'F', 'R'], 0, 2, 1⟩

/-- A four-operation run over the kind cycle Write, Read. -/
def exRunWR : RunInput := ⟨exParams, 4, ['W', 'R'], 0, 2, 1⟩

/-! ## Helper lemmas -/

theorem getD_replicate {α : Type} (a d : α) : ∀ (n m : Nat),
    (List.replicate n a).getD m d = if m < n then a else d := by
  intro n
  induction n with
  | zero => intro m; simp [List.replicate]
  | succ n ih =>
    intro m
    cases m with
    | zero => simp [List.replicate]
    | succ m => simpa [List.replicate, Nat.succ_lt_succ_iff] using ih m

theorem padTo_length (n : Nat) (l : List Nat) : (padTo n l).length = n := by
  simp only [padTo, List.length_append, List.length_take, List.length_replicate]
  omega

theorem padTo_take (n : Nat) (l : List Nat) :
    (padTo n l).take (min n l.length) = l.take (min n l.length) := by
  unfold padTo
  rw [List.take_append_of_le_length (by simp), List.take_take]
  congr 1
  omega

theorem padTo_getD_zero (n : Nat) (l : List Nat) :
    ∀ m, min n l.length ≤ m → (padTo n l).getD m 0 = 0 := by
  intro m hm
  by_cases hmn : n ≤ m
  · exact List.getD_eq_default _ _ (le_trans (le_of_eq (padTo_length n l)) hmn)
  · have hlm : l.length ≤ m := by omega
    unfold padTo
    rw [List.getD_append_right _ _ _ _ (by simp; omega), getD_replicate]
    split <;> rfl

theorem pattern_length (f : Nat → Nat) (W : Nat) : ∀ C,
    ((List.range C).flatMap fun i => List.replicate W (f i)).length = C * W := by
  intro C
  induction C with
  | zero => simp
  | succ C ih =>
    rw [List.range_succ, List.flatMap_append]
    simp [ih, Nat.succ_mul]

theorem pattern_getD (f : Nat → Nat) (W : Nat) : ∀ C i j, i < C → j < W →
    ((List.range C).flatMap fun i => List.replicate W (f i)).getD (i * W + j) 0 = f i := by
  intro C
  induction C with
  | zero => intro i j hi _; omega
  | succ C ih =>
    intro i j hi hj
    rw [List.range_succ, List.flatMap_append]
    by_cases hiC : i < C
    · rw [List.getD_append]
      · exact ih i j hiC hj
      · rw [pattern_length]
        calc i * W + j < (i + 1) * W := by nlinarith
          _ ≤ C * W := Nat.mul_le_mul_right _ hiC
    · have hieq : i = C := by omega
      subst hieq
      rw [List.getD_append_right _ _ _ _ (by rw [pattern_length]; omega)]
      rw [pattern_length]
      simp only [List.flatMap_cons, List.flatMap_nil, List.append_nil]
      rw [show i * W + j - i * W = j from by omega, getD_replicate, if_pos hj]

theorem lcgPow_zero (s : Nat) : lcgPow 0 s = s := by
  simp only [lcgPow]

theorem lcgPow_succ_apply : ∀ (n s : Nat), lcgPow (n + 1) s = lcgPow n (lcgNext s) := by
  intro n
  induction n with
  | zero => intro s; simp only [lcgPow]
  | succ n ih =>
    intro s
    simp only [lcgPow]
    rw [← ih s]
    simp only [lcgPow]

theorem genRandomBytesGo_succ (s n : Nat) : genRandomBytesGo s (n + 1) =
    (((lcgNext s >>> 16) % 256) :: (genRandomBytesGo (lcgNext s) n).1,
     (genRandomBytesGo (lcgNext s) n).2) := by
  simp only [genRandomBytesGo]

theorem genRandomBytesGo_fst : ∀ (n s : Nat), (genRandomBytesGo s n).1 =
    (List.range n).map fun k => (lcgPow (k + 1) s >>> 16) % 256 := by
  intro n
  induction n with
  | zero => intro s; simp [genRandomBytesGo]
  | succ n ih =>
    intro s
    rw [genRandomBytesGo_succ]
    simp only [ih (lcgNext s)]
    rw [List.range_succ_eq_map, List.map_cons, List.map_map]
    simp only [Function.comp_def, Nat.succ_eq_add_one, lcgPow_succ_apply, lcgPow_zero]

theorem genRandomBytesGo_snd : ∀ (n s : Nat), (genRandomBytesGo s n).2 = lcgPow n s := by
  intro n
  induction n with
  | zero => intro s; rfl
  | succ n ih =>
    intro s
    rw [genRandomBytesGo_succ, ih (lcgNext s), lcgPow_succ_apply n s]

theorem traceGo_zero (c : BatchCtx) (ks : List TransactKind)
    (resp : Nat → IssuedOp → Bool) (s : LoopState) : traceGo c ks resp s 0 = [] := by
  simp only [traceGo]

theorem traceGo_succ (c : BatchCtx) (ks : List TransactKind)
    (resp : Nat → IssuedOp → Bool) (s : LoopState) (rem : Nat) :
    traceGo c ks resp s (rem + 1) =
      if resp s.i (loopStep c ks s).1
      then (loopStep c ks s).1 :: traceGo c ks resp (loopStep c ks s).2 rem
      else [(loopStep c ks s).1] := by
  simp only [traceGo]

theorem iterState_zero (c : BatchCtx) (ks : List TransactKind) (s : LoopState) :
    iterState c ks s 0 = s := by
  simp only [iterState]

theorem iterState_succ (c : BatchCtx) (ks : List TransactKind) (s : LoopState) (n : Nat) :
    iterState c ks s (n + 1) = iterState c ks (loopStep c ks s).2 n := by
  simp only [iterState]

theorem loopStep_snd_i (c : BatchCtx) (ks : List TransactKind) (s : LoopState) :
    (loopStep c ks s).2.i = s.i + 1 := rfl

theorem loopStep_snd_j (c : BatchCtx) (ks : List TransactKind) (s : LoopState) :
    (loopStep c ks s).2.j = (s.j + 1) % ks.length := rfl

theorem iterState_i (c : BatchCtx) (ks : List TransactKind) :
    ∀ (n : Nat) (s : LoopState), (iterState c ks s n).i = s.i + n := by
  intro n
  induction n with
  | zero => intro s; rw [iterState_zero]; omega
  | succ n ih =>
    intro s
    rw [iterState_succ, ih, loopStep_snd_i]
    omega

theorem traceGo_getD (c : BatchCtx) (ks : List TransactKind) (resp : Nat → IssuedOp → Bool) :
    ∀ (rem : Nat) (s : LoopState) (n : Nat), n < (traceGo c ks resp s rem).length →
      (traceGo c ks resp s rem).getD n default = opAt c ks (iterState c ks s n) := by
  intro rem
  induction rem with
  | zero =>
    intro s n h
    rw [traceGo_zero] at h
    simp at h
  | succ rem ih =>
    intro s n h
    rw [traceGo_succ] at h ⊢
    by_cases hr : resp s.i (loopStep c ks s).1
    · rw [if_pos hr] at h ⊢
      cases n with
      | zero => rw [List.getD_cons_zero, iterState_zero]; rfl
      | succ n =>
        rw [List.getD_cons_succ, ih (loopStep c ks s).2 n (by simpa using h), iterState_succ]
    · rw [if_neg hr] at h ⊢
      have hn : n = 0 := by simpa using h
      subst hn
      rw [List.getD_cons_zero, iterState_zero]
      rfl

theorem testOpKindAt_zero (ks : List TransactKind) : testOpKindAt ks 0 = .reserved := rfl

theorem testOpKindAt_succ (ks : List TransactKind) (j : Nat) (h : j < ks.length) :
    testOpKindAt ks (j + 1) = testOpKindStep (testOpKindAt ks j) (ks.getD j .reserved) := by
  unfold testOpKindAt
  rw [List.take_succ, List.foldl_append, List.getElem?_eq_getElem h]
  simp [List.getD_eq_getElem?_getD, List.getElem?_eq_getElem h]

theorem foldl_testOpKindStep_wu (l : List TransactKind) : ∀ (a : TransactKind),
    (List.foldl testOpKindStep a l = .write ∨ List.foldl testOpKindStep a l = .unmap) ↔
      ((∃ x ∈ l, x = .write ∨ x = .unmap) ∨ (a = .write ∨ a = .unmap)) := by
  induction l with
  | nil => intro a; simp
  | cons x xs ih =>
    intro a
    rw [List.foldl_cons, ih]
    cases x <;> simp [testOpKindStep]

theorem oracleCheckOf_read_ne_none (t : TransactKind) :
    oracleCheckOf t .read ≠ none ↔ (t = .write ∨ t = .unmap) := by
  unfold oracleCheckOf
  split_ifs with h <;> simp_all

theorem batchStart_fst (c : BatchCtx) (i blockAddress blockCount seed : Nat) :
    (batchStart c i blockAddress blockCount seed).1 =
      (batchAddrDraw c i blockAddress blockCount seed).1 % c.params.BlockCount := rfl

theorem batchStart_opc (c : BatchCtx) (i blockAddress blockCount seed : Nat) :
    (batchStart c i blockAddress blockCount seed).2.2.1 =
      opBlockCountOf c.params.BlockCount
        ((batchAddrDraw c i blockAddress blockCount seed).1 % c.params.BlockCount)
        (if (batchCountDraw c blockCount (batchAddrDraw c i blockAddress blockCount seed).2).1 = 0
         then 1
         else (batchCountDraw c blockCount (batchAddrDraw c i blockAddress blockCount seed).2).1) :=
  rfl

theorem batchCountDraw_lt_pow32 (c : BatchCtx) (blockCount seed : Nat)
    (hMax : 0 < maxBlockCount c.params)
    (hMTL : c.params.MaxTransferLength < pow32)
    (hCnt : blockCount < pow32) :
    (batchCountDraw c blockCount seed).1 < pow32 := by
  have hmax32 : maxBlockCount c.params < pow32 :=
    lt_of_le_of_lt (Nat.div_le_self _ _) hMTL
  unfold batchCountDraw
  split_ifs with h1 h2
  · exact lt_trans (Nat.mod_lt _ hMax) hmax32
  · exact hmax32
  · exact hCnt

theorem opBlockCountOf_bounds (deviceBlockCount blockAddress cnt : Nat)
    (_hBC : 0 < deviceBlockCount) (ha : blockAddress < deviceBlockCount)
    (h1 : 1 ≤ cnt) (h32 : cnt < pow32)
    (hNoOv : deviceBlockCount + pow32 ≤ pow64) :
    1 ≤ opBlockCountOf deviceBlockCount blockAddress cnt ∧
    blockAddress + opBlockCountOf deviceBlockCount blockAddress cnt ≤ deviceBlockCount := by
  have hp : pow32 ≤ pow64 := by decide
  unfold opBlockCountOf
  have hsum : (blockAddress + cnt) % pow64 = blockAddress + cnt :=
    Nat.mod_eq_of_lt (by omega)
  rw [hsum]
  split_ifs with h
  · exact ⟨h1, h⟩
  · have h2 : (deviceBlockCount - blockAddress) % pow32 =
        deviceBlockCount - blockAddress := Nat.mod_eq_of_lt (by omega)
    rw [h2]
    omega

/-! ## Claim theorems -/

/-- C1 (amended): a pipe open's handshake succeeds exactly when a full
Geometry was received with `BlockCount > 0`, `BlockLength ≥ 16` (the Unmap
descriptor size), `MaxTransferLength > 0` and `MaxTransferLength` an exact
multiple of `BlockLength`; a raw open only guarantees `BlockCount > 0`,
`BlockLength > 0` and `MaxTransferLength > 0` (the latter via the 65536
default) — it does not enforce the remaining two conditions. -/
theorem c1_open_geometry_validation (bytes : Nat) (p : StorageUnitParams)
    (d : RawDevice) (q : StorageUnitParams) :
    (stgOpenPipeHandshake bytes p = .ok p ↔
      (sizeofStorageUnitParams ≤ bytes ∧ 0 < p.BlockCount ∧
       sizeofUnmapDescriptor ≤ p.BlockLength ∧ 0 < p.MaxTransferLength ∧
       p.MaxTransferLength % p.BlockLength = 0)) ∧
    (stgOpenRaw d = .ok q →
      0 < q.BlockCount ∧ 0 < q.BlockLength ∧ 0 < q.MaxTransferLength) := by
  constructor
  · unfold stgOpenPipeHandshake
    split_ifs with h
    · constructor
      · intro he
        simp at he
      · intro hr
        obtain ⟨h1, h2, h3, h4, h5⟩ := hr
        rcases h with h | h | h | h | h
        · omega
        · omega
        · omega
        · omega
        · exact h h5
    · push_neg at h
      obtain ⟨h1, h2, h3, h4, h5⟩ := h
      constructor
      · intro _
        exact ⟨by omega, by omega, by omega, by omega, h5⟩
      · intro _
        rfl
  · intro hok
    simp only [stgOpenRaw] at hok
    split_ifs at hok with h1 h2 h3 h4 h5 h6 <;> try simp at hok
    all_goals subst hok
    all_goals push_neg at h5
    all_goals dsimp only
    all_goals simp only [List.getD_eq_getElem?_getD] at h6
    all_goals omega

/-- C1 counterexample: the claim as stated fails for the raw transport: a
device reporting one block of 8 bytes opens successfully even though its
`BlockLength` is below the 16-byte Unmap-descriptor minimum (and 65536 is
not checked against `BlockLength % 16`-style divisibility either). -/
theorem c1_claim_counterexample :
    stgOpenRaw exRawDeviceSmallBL = .ok ⟨1, 8, 65536⟩ ∧
    ¬(sizeofUnmapDescriptor ≤ (8 : Nat)) := by
  constructor
  · rfl
  · decide

/-- C1 witness: the pipe handshake accepts a well-formed geometry, and a
successful raw open yields positive geometry fields. -/
theorem c1_open_geometry_validation_witness :
    stgOpenPipeHandshake 16 exParams = .ok exParams ∧
    (0 < (1 : Nat) ∧ 0 < (8 : Nat) ∧ 0 < (65536 : Nat)) :=
  ⟨(c1_open_geometry_validation 16 exParams exRawDeviceSmallBL ⟨1, 8, 65536⟩).1.mpr
      ⟨by decide, by decide, by decide, by decide, by decide⟩,
   (c1_open_geometry_validation 16 exParams exRawDeviceSmallBL ⟨1, 8, 65536⟩).2 rfl⟩

/-- C2: for a pipe transact whose write and read waits succeed, a received
message shorter than the response header or carrying a `Hint` different
from the request's makes the transact fail with `ERROR_IO_DEVICE` (no
response is delivered); consequently every response a successful transact
returns carries the request's `Hint`. -/
theorem c2_pipe_transact_correlation (req : TransactReq) (buf : List Nat)
    (p : StorageUnitParams) (wire : PipeWire) :
    (wire.writeError = 0 → wire.readError = 0 →
      (wire.bytesTransferred < sizeofTransactRsp ∨ req.Hint ≠ wire.rsp.Hint) →
      stgTransactPipe req buf p wire = .error ERROR_IO_DEVICE) ∧
    (∀ r out, stgTransactPipe req buf p wire = .ok (r, out) → r.Hint = req.Hint) := by
  constructor
  · intro hw hr hbad
    have hcond : wire.bytesTransferred < sizeofTransactMsg ∨ req.Hint ≠ wire.rsp.Hint := by
      have e1 : sizeofTransactRsp = 24 := rfl
      have e2 : sizeofTransactMsg = 32 := rfl
      rcases hbad with h | h
      · left; omega
      · right; exact h
    unfold stgTransactPipe
    rw [if_neg (by omega), if_neg (by omega), if_pos hcond]
  · intro r out hok
    simp only [stgTransactPipe] at hok
    split_ifs at hok with h1 h2 h3 h4 h5 <;> try simp at hok
    · push_neg at h3
      rw [← hok.1]
      omega
    · push_neg at h3
      rw [← hok.1]
      omega

/-- C2 witness: a 10-byte response message is rejected with
`ERROR_IO_DEVICE`, and a successful transact's response carries the
request's hint. -/
theorem c2_pipe_transact_correlation_witness :
    stgTransactPipe exReqRead [] exParams exWireShort = .error ERROR_IO_DEVICE ∧
    (⟨5, .read, 0⟩ : TransactRsp).Hint = exReqRead.Hint :=
  ⟨(c2_pipe_transact_correlation exReqRead [] exParams exWireShort).1 rfl rfl
      (Or.inl (by decide)),
   (c2_pipe_transact_correlation exReqRead [] exParams exWireLong).2 ⟨5, .read, 0⟩
      (List.replicate 32 7) rfl⟩

/-- C3 counterexample: the claim as stated fails when
`Read.BlockCount * BlockLength` overflows `UINT32`: with `BlockLength`
and `BlockCount` both 2^16 the product wraps to 0, the transact succeeds,
and 0 bytes are delivered instead of `BlockCount * BlockLength`. -/
theorem c3_claim_counterexample :
    stgTransactPipe exReqOverflow [] exParamsOverflow exWireHeaderOnly =
      .ok (⟨5, .read, 0⟩, []) ∧
    ([] : List Nat).length ≠ exReqOverflow.blockCount * exParamsOverflow.BlockLength := by
  constructor
  · rfl
  · decide

/-- C3 (amended): for a successful pipe transact whose received response
has Read kind and good SCSI status, and whose `Read.BlockCount *
BlockLength` fits in 32 bits (as every request the test loop issues does),
the caller's buffer receives exactly `BlockCount * BlockLength` bytes: the
delivered payload truncated to that length, zero-filled beyond what the
transport delivered. -/
theorem c3_read_payload_clamp (req : TransactReq) (buf : List Nat)
    (p : StorageUnitParams) (wire : PipeWire) (rsp : TransactRsp) (out : List Nat)
    (hok : stgTransactPipe req buf p wire = .ok (rsp, out))
    (hkind : wire.rsp.Kind = .read) (hstatus : wire.rsp.ScsiStatus = SCSISTAT_GOOD)
    (hfit : req.blockCount * p.BlockLength < pow32) :
    out.length = req.blockCount * p.BlockLength ∧
    out.take (min (req.blockCount * p.BlockLength) (deliveredPayload wire).length) =
      (deliveredPayload wire).take
        (min (req.blockCount * p.BlockLength) (deliveredPayload wire).length) ∧
    (∀ n, min (req.blockCount * p.BlockLength) (deliveredPayload wire).length ≤ n →
      out.getD n 0 = 0) := by
  simp only [stgTransactPipe] at hok
  split_ifs at hok with h1 h2 h3 h4 h5 <;> try simp at hok
  · rw [Nat.mod_eq_of_lt hfit] at hok
    rw [← hok.2]
    exact ⟨padTo_length _ _, padTo_take _ _, padTo_getD_zero _ _⟩
  · exact absurd ⟨hkind, hstatus⟩ h4

/-- C3 witness: a transport delivering 40 payload bytes for a 32-byte read
yields exactly 32 bytes, and positions past the clamp read as zero. -/
theorem c3_read_payload_clamp_witness :
    stgTransactPipe exReqRead [] exParams exWireLong =
      .ok (⟨5, .read, 0⟩, List.replicate 32 7) ∧
    (List.replicate 32 7 : List Nat).length =
      exReqRead.blockCount * exParams.BlockLength ∧
    (List.replicate 32 7 : List Nat).getD 35 0 = 0 :=
  ⟨rfl,
   (c3_read_payload_clamp exReqRead [] exParams exWireLong ⟨5, .read, 0⟩
      (List.replicate 32 7) rfl (by decide) (by decide) (by decide)).1,
   (c3_read_payload_clamp exReqRead [] exParams exWireLong ⟨5, .read, 0⟩
      (List.replicate 32 7) rfl (by decide) (by decide) (by decide)).2.2
     35 (by decide)⟩

/-- C4 counterexample: the claim as stated fails when
`BlockAddress + BlockCount` overflows `UINT64`: over a device of
`2^64 - 1` blocks, a first batch at address `2^64 - 2` with count 10 wraps
the sum to 8, the clamp is skipped, and the batch addresses blocks past
the end of the device. -/
theorem c4_claim_counterexample :
    0 < exHugeCtx.params.BlockCount ∧ 0 < maxBlockCount exHugeCtx.params ∧
    ¬((batchStart exHugeCtx 0 (pow64 - 2) 10 1).1 +
        (batchStart exHugeCtx 0 (pow64 - 2) 10 1).2.2.1 ≤
      exHugeCtx.params.BlockCount) := by
  refine ⟨by decide, by decide, by decide⟩

/-- C4 (amended): for every batch start over a geometry with
`BlockCount > 0`, `MaxBlockCount > 0`, `MaxTransferLength` within `UINT32`
and `BlockCount ≤ 2^64 - 2^32` (so the `UINT64` bound comparison cannot
wrap), and a running count within `UINT32`, the produced block address is
below `BlockCount`, the effective operation count is at least 1, and
address plus effective count never exceed `BlockCount`. -/
theorem c4_batch_bounds (c : BatchCtx) (i blockAddress blockCount seed : Nat)
    (hBC : 0 < c.params.BlockCount)
    (hMax : 0 < maxBlockCount c.params)
    (hMTL : c.params.MaxTransferLength < pow32)
    (hCnt : blockCount < pow32)
    (hNoOv : c.params.BlockCount + pow32 ≤ pow64) :
    (batchStart c i blockAddress blockCount seed).1 < c.params.BlockCount ∧
    1 ≤ (batchStart c i blockAddress blockCount seed).2.2.1 ∧
    (batchStart c i blockAddress blockCount seed).1 +
      (batchStart c i blockAddress blockCount seed).2.2.1 ≤
        c.params.BlockCount := by
  have hp1 : (1 : Nat) < pow32 := by decide
  have ha : (batchAddrDraw c i blockAddress blockCount seed).1 % c.params.BlockCount <
      c.params.BlockCount := Nat.mod_lt _ hBC
  have hcd32 : (batchCountDraw c blockCount
      (batchAddrDraw c i blockAddress blockCount seed).2).1 < pow32 :=
    batchCountDraw_lt_pow32 c blockCount _ hMax hMTL hCnt
  have hcnt1 : 1 ≤ (if (batchCountDraw c blockCount
      (batchAddrDraw c i blockAddress blockCount seed).2).1 = 0 then 1
      else (batchCountDraw c blockCount
        (batchAddrDraw c i blockAddress blockCount seed).2).1) := by
    split <;> omega
  have hcnt32 : (if (batchCountDraw c blockCount
      (batchAddrDraw c i blockAddress blockCount seed).2).1 = 0 then 1
      else (batchCountDraw c blockCount
        (batchAddrDraw c i blockAddress blockCount seed).2).1) < pow32 := by
    split <;> omega
  obtain ⟨g1, g2⟩ := opBlockCountOf_bounds c.params.BlockCount
    ((batchAddrDraw c i blockAddress blockCount seed).1 % c.params.BlockCount)
    _ hBC ha hcnt1 hcnt32 hNoOv
  refine ⟨?_, ?_, ?_⟩
  · rw [batchStart_fst]; exact ha
  · rw [batchStart_opc]; exact g1
  · rw [batchStart_fst, batchStart_opc]; exact g2

theorem effectiveOpKinds_ne_nil (opSet : List Char) : effectiveOpKinds opSet ≠ [] := by
  simp only [effectiveOpKinds]
  split_ifs with h
  · simp
  · exact h

theorem opAt_kind (c : BatchCtx) (ks : List TransactKind) (s : LoopState) :
    (opAt c ks s).kind = ks.getD (s.i % ks.length) .reserved := rfl

theorem opAt_oracleCheck (c : BatchCtx) (ks : List TransactKind) (s : LoopState) :
    (opAt c ks s).oracleCheck =
      oracleCheckOf
        (testOpKindStep (if s.j = 0 then .reserved else s.testOpKind)
          (ks.getD (s.i % ks.length) .reserved))
        (ks.getD (s.i % ks.length) .reserved) := by
  unfold opAt loopStep
  by_cases h0 : s.j = 0 <;> simp [h0]

theorem loopStep_snd_testOpKind (c : BatchCtx) (ks : List TransactKind) (s : LoopState) :
    (loopStep c ks s).2.testOpKind =
      testOpKindStep (if s.j = 0 then .reserved else s.testOpKind)
        (ks.getD (s.i % ks.length) .reserved) := by
  unfold loopStep
  by_cases h0 : s.j = 0 <;> simp [h0]

theorem stateInv_step (c : BatchCtx) (ks : List TransactKind) (hk : ks ≠ [])
    (s : LoopState) (hinv : stateInv ks s) : stateInv ks (loopStep c ks s).2 := by
  have hn : 0 < ks.length := List.length_pos.mpr hk
  obtain ⟨hj, ht⟩ := hinv
  constructor
  · rw [loopStep_snd_i, loopStep_snd_j, hj, Nat.mod_add_mod]
  · intro hne
    rw [loopStep_snd_j] at hne
    rw [loopStep_snd_j, loopStep_snd_testOpKind]
    by_cases h0 : s.j = 0
    · rw [if_pos h0]
      have hidx : (s.j + 1) % ks.length = 1 := by
        rcases Nat.lt_or_ge 1 ks.length with hl | hl
        · rw [h0]
          simpa using Nat.mod_eq_of_lt hl
        · exfalso
          have hl1 : ks.length = 1 := by omega
          rw [h0, hl1] at hne
          simp at hne
      rw [hidx, testOpKindAt_succ ks 0 hn, testOpKindAt_zero, ← hj, h0]
    · rw [if_neg h0, ht h0]
      have hjlt : s.j < ks.length := by rw [hj]; exact Nat.mod_lt _ hn
      rcases Nat.lt_or_ge (s.j + 1) ks.length with hlt | hge
      · rw [Nat.mod_eq_of_lt hlt, testOpKindAt_succ ks s.j hjlt, ← hj]
      · exfalso
        have heq : s.j + 1 = ks.length := by omega
        rw [heq, Nat.mod_self] at hne
        exact hne rfl

theorem stateInv_iter (c : BatchCtx) (ks : List TransactKind) (hk : ks ≠ []) :
    ∀ (n : Nat) (s : LoopState), stateInv ks s → stateInv ks (iterState c ks s n) := by
  intro n
  induction n with
  | zero => intro s h; rw [iterState_zero]; exact h
  | succ n ih =>
    intro s h
    rw [iterState_succ]
    exact ih _ (stateInv_step c ks hk s h)

theorem opAt_oracleCheck_inv (c : BatchCtx) (ks : List TransactKind) (hk : ks ≠ [])
    (s : LoopState) (hinv : stateInv ks s) :
    (opAt c ks s).oracleCheck = oracleCheckAt ks (s.i % ks.length) := by
  have hn : 0 < ks.length := List.length_pos.mpr hk
  obtain ⟨hj, ht⟩ := hinv
  have hjlt : s.j < ks.length := by rw [hj]; exact Nat.mod_lt _ hn
  have hstep : (if s.j = 0 then TransactKind.reserved else s.testOpKind) =
      testOpKindAt ks s.j := by
    by_cases h0 : s.j = 0
    · rw [if_pos h0, h0, testOpKindAt_zero]
    · rw [if_neg h0]; exact ht h0
  rw [opAt_oracleCheck]
  unfold oracleCheckAt
  rw [hstep, ← hj, testOpKindAt_succ ks s.j hjlt]

theorem oracleCheckAt_read_iff (ks : List TransactKind) (j : Nat) (hj : j < ks.length)
    (hread : ks.getD j .reserved = .read) :
    (oracleCheckAt ks j ≠ none ↔ ∃ x ∈ ks.take j, x = .write ∨ x = .unmap) := by
  unfold oracleCheckAt
  rw [hread, testOpKindAt_succ ks j hj, hread,
    show testOpKindStep (testOpKindAt ks j) TransactKind.read = testOpKindAt ks j from rfl,
    oracleCheckOf_read_ne_none]
  unfold testOpKindAt
  rw [foldl_testOpKindStep_wu]
  simp

/-- C6 counterexample: the claim as stated fails on the kind cycle
Write, Flush, Read: the Read (batch position 2) is immediately preceded by
a Flush, yet the loop still verifies its buffer against the write
pattern, because `TestOpKind` persists across the intervening Flush. -/
theorem c6_claim_counterexample :
    ((runTrace respAlways exRunWFR).getD 2 default).kind = .read ∧
    ((runTrace respAlways exRunWFR).getD 1 default).kind = .flush ∧
    ((runTrace respAlways exRunWFR).getD 2 default).oracleCheck = some .write := by
  refine ⟨by decide, by decide, by decide⟩

/-- C6 (amended): a Read issued by the test loop is oracle-verified iff
some earlier operation of the same batch (one pass over the kind cycle) is
a Write or an Unmap; the most recent such operation selects the mode, and
intervening Flush or Read operations do not cancel the pending check, so
"immediately preceding" is not required. -/
theorem c6_read_oracle_check_gating (inp : RunInput) (resp : Nat → IssuedOp → Bool)
    (n : Nat) (hn : n < (runTrace resp inp).length)
    (hread : ((runTrace resp inp).getD n default).kind = .read) :
    (((runTrace resp inp).getD n default).oracleCheck ≠ none ↔
      ∃ x ∈ (effectiveOpKinds inp.opSet).take (n % (effectiveOpKinds inp.opSet).length),
        x = .write ∨ x = .unmap) := by
  have hk : effectiveOpKinds inp.opSet ≠ [] := effectiveOpKinds_ne_nil inp.opSet
  have hnpos : 0 < (effectiveOpKinds inp.opSet).length := List.length_pos.mpr hk
  unfold runTrace at hn hread ⊢
  rw [traceGo_getD _ _ _ _ _ _ hn] at hread ⊢
  have hinv := stateInv_iter (runCtx inp) (effectiveOpKinds inp.opSet) hk n
    { i := 0, j := 0, blockAddress := inp.blockAddress0, blockCount := inp.blockCount0,
      opBlockCount := 0, seed := inp.seed0, testOpKind := .reserved }
    ⟨by simp, fun hh => absurd rfl hh⟩
  have hi : (iterState (runCtx inp) (effectiveOpKinds inp.opSet)
      { i := 0, j := 0, blockAddress := inp.blockAddress0, blockCount := inp.blockCount0,
        opBlockCount := 0, seed := inp.seed0, testOpKind := .reserved } n).i = n := by
    rw [iterState_i]
    simp
  rw [opAt_kind, hi] at hread
  rw [opAt_oracleCheck_inv _ _ hk _ hinv, hi]
  exact oracleCheckAt_read_iff _ (n % (effectiveOpKinds inp.opSet).length)
    (Nat.mod_lt _ hnpos) hread

/-- C6 witness: in the default-like Write, Read cycle the Read at index 1
is oracle-checked. -/
theorem c6_read_oracle_check_gating_witness :
    1 < (runTrace respAlways exRunWR).length ∧
    ((runTrace respAlways exRunWR).getD 1 default).kind = .read ∧
    ((runTrace respAlways exRunWR).getD 1 default).oracleCheck ≠ none :=
  ⟨by decide, by decide,
   (c6_read_oracle_check_gating exRunWR respAlways 1 (by decide) (by decide)).mpr
     ⟨.write, by decide, Or.inl rfl⟩⟩

/-- C9: the (Kind, BlockAddress, BlockCount) triple of the `n`-th issued
operation is a function of the run inputs alone — it does not depend on
the device's responses — so two runs with identical seed, geometry,
operation count, kind set, starting address and count issue identical
triples at every index both runs reach. -/
theorem c9_trace_deterministic (inp : RunInput) (r1 r2 : Nat → IssuedOp → Bool) (n : Nat)
    (h1 : n < (runTrace r1 inp).length) (h2 : n < (runTrace r2 inp).length) :
    opTriple ((runTrace r1 inp).getD n default) =
      opTriple ((runTrace r2 inp).getD n default) := by
  unfold runTrace at h1 h2 ⊢
  rw [traceGo_getD _ _ _ _ _ _ h1, traceGo_getD _ _ _ _ _ _ h2]

/-- C9 witness: an all-success device and a first-op-only device issue the
same first triple. -/
theorem c9_trace_deterministic_witness :
    0 < (runTrace respAlways exRunWR).length ∧
    0 < (runTrace respFirstOnly exRunWR).length ∧
    opTriple ((runTrace respAlways exRunWR).getD 0 default) =
      opTriple ((runTrace respFirstOnly exRunWR).getD 0 default) :=
  ⟨by decide, by decide,
   c9_trace_deterministic exRunWR respAlways respFirstOnly 0 (by decide) (by decide)⟩

/-- C4 witness: over a 100-block device with a 10-block transfer cap, a
batch at address 98 with count 10 clamps the effective count to 2, ending
exactly at the last block. -/
theorem c4_batch_bounds_witness :
    (0 < exCtx.params.BlockCount ∧ 0 < maxBlockCount exCtx.params ∧
     exCtx.params.MaxTransferLength < pow32 ∧ 10 < pow32 ∧
     exCtx.params.BlockCount + pow32 ≤ pow64) ∧
    ((batchStart exCtx 0 98 10 1).1 < exCtx.params.BlockCount ∧
     1 ≤ (batchStart exCtx 0 98 10 1).2.2.1 ∧
     (batchStart exCtx 0 98 10 1).1 + (batchStart exCtx 0 98 10 1).2.2.1 ≤
       exCtx.params.BlockCount) :=
  ⟨⟨by decide, by decide, by decide, by decide, by decide⟩,
   c4_batch_bounds exCtx 0 98 10 1 (by decide) (by decide) (by decide) (by decide)
     (by decide)⟩

/-- C7: for every block address, every block count at least 1 and every
block length that is a positive multiple of 8, stamping a buffer with the
oracle pattern (`FillOrTest` in fill mode, each word of block `i` set to
`HashMix64 (BlockAddress + i + 1)`) and then running the Write-mode
verification of `FillOrTest` over the same unmodified buffer reports no
corruption. -/
theorem c7_stamp_verify_roundtrip (blockAddress blockCount blockLength : Nat)
    (_hC : 1 ≤ blockCount) (_hBL : 0 < blockLength) (_h8 : blockLength % 8 = 0) :
    (FillOrTest (FillOrTest [] blockLength blockAddress blockCount .reserved).1
      blockLength blockAddress blockCount .write).2 = true := by
  simp only [FillOrTest]
  rw [List.all_eq_true]
  intro i hi
  rw [List.all_eq_true]
  intro j hj
  rw [List.mem_range] at hi hj
  rw [pattern_getD _ _ _ i j hi hj]
  exact beq_self_eq_true _

/-- C7 witness: a concrete round trip at address 0, one block of 16
bytes. -/
theorem c7_stamp_verify_roundtrip_witness :
    1 ≤ 1 ∧ 0 < 16 ∧ 16 % 8 = 0 ∧
    (FillOrTest (FillOrTest [] 16 0 1 .reserved).1 16 0 1 .write).2 = true :=
  ⟨by decide, by decide, by decide,
    c7_stamp_verify_roundtrip 0 1 16 (by decide) (by decide) (by decide)⟩

/-- C8: `GenRandomBytes` fills the buffer deterministically by iterating
`seed' = seed*214013 + 2531011` once per output byte, emitting one byte per
step from the state's high 16 bits, with a zero starting seed treated as
1: it coincides, for every seed and length, with the specification-level
description `genRandomBytesSpec`, so equal seed and length always give
bit-for-bit identical output. -/
theorem c8_genrandombytes_matches_spec (seed size : Nat) :
    GenRandomBytes seed size = genRandomBytesSpec seed size := by
  simp only [GenRandomBytes, genRandomBytesSpec]
  have hseed : (if seed ≠ 0 then seed else 1) = (if seed = 0 then 1 else seed) := by
    by_cases h : seed = 0 <;> simp [h]
  rw [hseed]
  refine Prod.ext ?_ ?_
  · rw [genRandomBytesGo_fst]
  · rw [genRandomBytesGo_snd]

/-- C5: the claim describes `MaxTransferLength := BlockLength * be32(m)`
with a 65536 default, but in `StgOpenRaw` the multiplication binds only
the first shifted byte of the `|` chain: at block-limits bytes
`[0,0,0,2]` and `BlockLength = 512` the code stores 2 where the
documented computation yields `512 * 2 = 1024`. -/
theorem c5_raw_mtl_precedence_divergence :
    rawMaxTransferLength 512 0 0 0 2 = 2 ∧
    512 * be32 0 0 0 2 = 1024 ∧
    rawMaxTransferLength 512 0 0 0 2 ≠ 512 * be32 0 0 0 2 := by
  decide

/-- C10: a raw-transport transact whose request kind is neither Read nor
Write, or whose request, response or data-buffer pointer is null, returns
`ERROR_INVALID_PARAMETER`, performs no device I/O, and leaves the caller's
response struct unmodified. -/
theorem c10_raw_transact_rejects_invalid (reqNull rspNull dataNull : Bool)
    (req : TransactReq) (rspIn : TransactRsp) (p : StorageUnitParams) (ioError : Nat)
    (h : reqNull = true ∨ rspNull = true ∨ dataNull = true ∨
      (req.Kind ≠ .read ∧ req.Kind ≠ .write)) :
    stgTransactRaw reqNull rspNull dataNull req rspIn p ioError =
      (ERROR_INVALID_PARAMETER, rspIn, []) := by
  unfold stgTransactRaw
  have hc : (reqNull = true ∨ rspNull = true ∨
      (req.Kind ≠ TransactKind.read ∧ req.Kind ≠ TransactKind.write) ∨ dataNull = true) := by
    tauto
  rw [if_pos hc]

/-- C10 witness: a Flush request with all pointers valid is rejected with
`ERROR_INVALID_PARAMETER` and the response struct is untouched. -/
theorem c10_raw_transact_rejects_invalid_witness :
    stgTransactRaw false false false exReqFlush ⟨9, .reserved, 7⟩ exParams 0 =
      (ERROR_INVALID_PARAMETER, ⟨9, .reserved, 7⟩, []) :=
  c10_raw_transact_rejects_invalid false false false exReqFlush ⟨9, .reserved, 7⟩ exParams 0
    (Or.inr (Or.inr (Or.inr ⟨by decide, by decide⟩)))

end Stgpipe
